import Mathlib

set_option maxRecDepth 8192

namespace GreatExpectationsTemplates

/-- Source text handled in bounded chunks: a piece of text is a list of short
string chunks whose concatenation is the content. Template sources are stored
one line per chunk. All functions below treat chunk boundaries as
meaningless: only the concatenated content matters. -/
abbrev Text := List String

/-- A value supplied in a render call's keyword bindings: the callers of this
module only ever pass strings and booleans. -/
inductive JValue where
  | str (s : String) : JValue
  | bool (b : Bool) : JValue
deriving DecidableEq

/-- Text form of a bound value as the Jinja2 output pipeline produces it:
Python str() of the value, so booleans print capitalized. -/
def jinjaToString : JValue → String
  | JValue.str s => s
  | JValue.bool true => "True"
  | JValue.bool false => "False"

/-- Keyword bindings of a render call. -/
abbrev Bindings := List (String × JValue)

/-- First-match association lookup, modelling Python dict lookup for the
finite maps in play. -/
def lookupA {α : Type} : List (String × α) → String → Option α
  | [], _ => none
  | (k, v) :: rest, x => if x = k then some v else lookupA rest x

/-- One syntactic piece of a template body: literal text, a variable
placeholder, or an include directive. -/
inductive Part where
  | lit (s : String) : Part
  | var (x : String) : Part
  | incl (t : String) : Part
deriving DecidableEq

/-- Split a character list at the first occurrence of the two-character
closing sequence a then b, returning the text before it and the text after. -/
def breakSeq (a b : Char) : List Char → Option (List Char × List Char)
  | [] => none
  | [_] => none
  | c :: d :: rest =>
    if c = a ∧ d = b then some ([], rest)
    else
      match breakSeq a b (d :: rest) with
      | none => none
      | some (pre, post) => some (c :: pre, post)

/-- Drop leading and trailing space characters of a tag's inner text. -/
def trimSpaces (l : List Char) : List Char :=
  ((l.dropWhile (fun c => c = ' ')).reverse.dropWhile (fun c => c = ' ')).reverse

/-- The single-quote character delimiting an include directive's target. -/
def squote : Char := Char.ofNat 39

/-- Interpret the inner text of a block tag. The template set only uses
simple include directives whose target is a single-quoted template name. -/
def parseTag (inner : List Char) : Part :=
  match trimSpaces inner with
  | 'i' :: 'n' :: 'c' :: 'l' :: 'u' :: 'd' :: 'e' :: rest =>
    match trimSpaces rest with
    | q :: r2 =>
      if q = squote then Part.incl (String.mk (r2.takeWhile (fun c => ¬ (c = squote))))
      else Part.lit ""
    | [] => Part.lit ""
  | _ => Part.lit ""

/-- Prepend an accumulated literal run, omitting empty literals. -/
def pushLit (l : List Char) (ps : List Part) : List Part :=
  match l with
  | [] => ps
  | c :: rest => Part.lit (String.mk (c :: rest)) :: ps

/-- Fuel-indexed scanner over one chunk of a template body: splits it into
literal runs, variable placeholders (double-brace tags), and include
directives (brace-percent block tags). The accumulator holds the current
literal run reversed. The fuel is the remaining text length plus one at the
defining call, so it never runs out there. -/
def parseAux : Nat → List Char → List Char → List Part
  | 0, acc, l => pushLit (acc.reverse ++ l) []
  | _ + 1, acc, [] => pushLit acc.reverse []
  | fuel + 1, acc, '\x7b' :: '\x7b' :: rest =>
    match breakSeq '\x7d' '\x7d' rest with
    | some (inner, rest2) =>
      pushLit acc.reverse (Part.var (String.mk (trimSpaces inner)) :: parseAux fuel [] rest2)
    | none => pushLit (acc.reverse ++ '\x7b' :: '\x7b' :: rest) []
  | fuel + 1, acc, '\x7b' :: '%' :: rest =>
    match breakSeq '%' '\x7d' rest with
    | some (inner, rest2) =>
      pushLit acc.reverse (parseTag inner :: parseAux fuel [] rest2)
    | none => pushLit (acc.reverse ++ '\x7b' :: '%' :: rest) []
  | fuel + 1, acc, c :: rest => parseAux fuel (c :: acc) rest

/-- Tail-recursive list length. -/
def lengthAcc {α : Type} : List α → Nat → Nat
  | [], n => n
  | _ :: l, n => lengthAcc l (n + 1)

/-- Parse one chunk of a template body into its parts. -/
def parseChunk (s : String) : List Part :=
  parseAux (lengthAcc s.data 0 + 1) [] s.data

/-- Parse a template body into its parts, chunk by chunk. In every template
of this module a tag lies entirely within one line, and chunks are lines, so
scanning chunks separately scans exactly the tags of the concatenated
body. -/
def parseText : Text → List Part
  | [] => []
  | c :: rest => parseChunk c ++ parseText rest

/-- Remove a trailing newline sequence from a single string. -/
def stripChunkNewline (s : String) : String :=
  match s.data.reverse with
  | '\n' :: '\r' :: r => String.mk r.reverse
  | '\n' :: r => String.mk r.reverse
  | '\r' :: r => String.mk r.reverse
  | _ => s

/-- The Jinja2 environment is created with its default keep_trailing_newline
setting, so the lexer removes a single trailing newline sequence from each
template source before parsing it: remove it from the source's last chunk. -/
def stripTrailingNewlineT (t : Text) : Text :=
  match t.reverse with
  | [] => []
  | last :: revRest => List.reverseAux revRest [stripChunkNewline last]

/-- Failures a render can surface: the loader's TemplateNotFound when a name
is absent from its mapping, or Python's RecursionError when include
recursion exceeds the interpreter recursion limit. -/
inductive RenderErr where
  | templateNotFound (name : String) : RenderErr
  | recursionLimit : RenderErr
deriving DecidableEq

/-- Output text for a placeholder: the bound value's text, or the empty
string when the name is unbound, since the environment is built with the
default Undefined class, which prints as the empty string. -/
def substVal : Option JValue → String
  | none => ""
  | some v => jinjaToString v

/-- Render a parsed part list left to right into an accumulator holding the
output chunks so far in reverse: literal runs pass through, placeholders are
substituted, includes are rendered by the supplied renderer and their chunks
spliced in place. -/
def renderPartsAcc (f : String → Except RenderErr Text) (b : Bindings) :
    List Part → Text → Except RenderErr Text
  | [], acc => Except.ok acc
  | Part.lit s :: rest, acc => renderPartsAcc f b rest (s :: acc)
  | Part.var x :: rest, acc =>
    renderPartsAcc f b rest (substVal (lookupA b x) :: acc)
  | Part.incl n :: rest, acc =>
    match f n with
    | Except.error e => Except.error e
    | Except.ok inner => renderPartsAcc f b rest (List.reverseAux inner acc)

/-- Render a parsed part list left to right, producing the concatenation of
the rendered parts. -/
def renderParts (f : String → Except RenderErr Text) (b : Bindings)
    (parts : List Part) : Except RenderErr Text :=
  (renderPartsAcc f b parts []).map List.reverse

/-- Fuel-indexed rendering of a named template against a registry: look the
body up, strip the trailing newline as the lexer does, parse, and render the
parts, recursing into includes with the same global bindings and one unit of
fuel consumed per nesting level. Exhausted fuel models the interpreter
recursion limit being hit. -/
def renderTpl : Nat → List (String × Text) → String → Bindings → Except RenderErr Text
  | 0, _, _, _ => Except.error RenderErr.recursionLimit
  | fuel + 1, reg, name, b =>
    match lookupA reg name with
    | none => Except.error (RenderErr.templateNotFound name)
    | some body =>
      renderParts (fun n => renderTpl fuel reg n b) b
        (parseText (stripTrailingNewlineT body))

/-- Template source, the fixed config version header: the module's flat string literal,
written as its lines (the content is their concatenation). -/
def CONFIG_VERSION_TEMPLATE : Text :=
  ["\n",
   "# config_version refers to the syntactic version of this config file, and is used in maintaining backwards compatibility\n",
   "# It is auto-generated and usually does not need to be changed.\n",
   "config_version: 2\n"]

/-- Template source, the telemetry opt-in block, with one placeholder: the module's flat string literal,
written as its lines (the content is their concatenation). -/
def ANONYMIZED_USAGE_STATISTICS_TEMPLATE : Text :=
  ["\n",
   "anonymous_usage_statistics:\n",
   "  enabled: \x7b\x7b allow_anonymous_usage_statistics \x7d\x7d\n"]

/-- Template source, version header plus usage-statistics block, two includes: the module's flat string literal,
written as its lines (the content is their concatenation). -/
def DATA_CONTEXT_UNIQUE_ID_PROJECT_TEMPLATE : Text :=
  ["\n",
   "\x7b% include 'config_version_template.j2' %\x7d\n",
   "\x7b% include 'anonymized_usage_statistics_template.j2' %\x7d\n"]

/-- Template source, scaffolding comment, version include, empty datasources section: the module's flat string literal,
written as its lines (the content is their concatenation). -/
def PROJECT_HELP_COMMENT_TEMPLATE : Text :=
  ["\n",
   "# Welcome to Great Expectations! Always know what to expect from your data.\n",
   "#\n",
   "# Here you can define datasources, batch kwargs generators, integrations and\n",
   "# more. This file is intended to be committed to your repo. For help with\n",
   "# configuration please:\n",
   "#   - Read our docs: https://docs.greatexpectations.io/en/latest/how_to_guides/spare_parts/data_context_reference.html#configuration\n",
   "#   - Join our slack channel: http://greatexpectations.io/slack\n",
   "\n",
   "\x7b% include 'config_version_template.j2' %\x7d\n",
   "\n",
   "# Datasources tell Great Expectations where your data lives and how to get it.\n",
   "# You can use the CLI command `great_expectations datasource new` to help you\n",
   "# add a new datasource. Read more at https://docs.greatexpectations.io/en/latest/reference/core_concepts/datasource_reference.html\n",
   "datasources: \x7b\x7d\n"]

/-- Template source, the fixed explanatory comment for the variables file: the module's flat string literal,
written as its lines (the content is their concatenation). -/
def CONFIG_VARIABLES_INTRO_TEMPLATE : Text :=
  ["\n",
   "# This config file supports variable substitution which enables: 1) keeping\n",
   "# secrets out of source control & 2) environment-based configuration changes\n",
   "# such as staging vs prod.\n",
   "#\n",
   "# When GE encounters substitution syntax (like `my_key: $\x7bmy_value\x7d` or\n",
   "# `my_key: $my_value`) in the great_expectations.yml file, it will attempt\n",
   "# to replace the value of `my_key` with the value from an environment\n",
   "# variable `my_value` or a corresponding key read from this config file,\n",
   "# which is defined through the `config_variables_file_path`.\n",
   "# Environment variables take precedence over variables defined here.\n",
   "#\n",
   "# Substitution values defined here can be a simple (non-nested) value,\n",
   "# nested value such as a dictionary, or an environment variable (i.e. $\x7bENV_VAR\x7d)\n",
   "#\n",
   "#\n",
   "# https://docs.greatexpectations.io/en/latest/how_to_guides/configuring_data_contexts/how_to_use_a_yaml_file_or_environment_variables_to_populate_credentials.html\n",
   "\n"]

/-- Template source, variables file body: intro include plus instance id placeholder: the module's flat string literal,
written as its lines (the content is their concatenation). -/
def CONFIG_VARIABLES_TEMPLATE : Text :=
  ["\n",
   "\x7b% include 'config_variables_intro_template.j2' %\x7d\n",
   "instance_id: \x7b\x7b instance_id \x7d\x7d\n"]

/-- Template source, stores and operators scaffolding, with the intro include: the module's flat string literal,
written as its lines (the content is their concatenation). -/
def PROJECT_OPTIONAL_CONFIG_COMMENT_TEMPLATE : Text :=
  ["\n",
   "\x7b% include 'config_variables_intro_template.j2' %\x7d\n",
   "config_variables_file_path: uncommitted/config_variables.yml\n",
   "\n",
   "# The plugins_directory will be added to your python path for custom modules\n",
   "# used to override and extend Great Expectations.\n",
   "plugins_directory: plugins/\n",
   "\n",
   "# Validation Operators are customizable workflows that bundle the validation of\n",
   "# one or more expectation suites and subsequent actions. The example below\n",
   "# stores validations and send a slack notification. To read more about\n",
   "# customizing and extending these, read: https://docs.greatexpectations.io/en/latest/reference/core_concepts/validation_operators_and_actions.html\n",
   "validation_operators:\n",
   "  action_list_operator:\n",
   "    # To learn how to configure sending Slack notifications during evaluation\n",
   "    # (and other customizations), read: https://docs.greatexpectations.io/en/latest/autoapi/great_expectations/validation_operators/index.html#great_expectations.validation_operators.ActionListValidationOperator\n",
   "    class_name: ActionListValidationOperator\n",
   "    action_list:\n",
   "      - name: store_validation_result\n",
   "        action:\n",
   "          class_name: StoreValidationResultAction\n",
   "      - name: store_evaluation_params\n",
   "        action:\n",
   "          class_name: StoreEvaluationParametersAction\n",
   "      - name: update_data_docs\n",
   "        action:\n",
   "          class_name: UpdateDataDocsAction\n",
   "      # - name: send_slack_notification_on_validation_result\n",
   "      #   action:\n",
   "      #     class_name: SlackNotificationAction\n",
   "      #     # put the actual webhook URL in the uncommitted/config_variables.yml file\n",
   "      #     slack_webhook: $\x7bvalidation_notification_slack_webhook\x7d\n",
   "      #     notify_on: all # possible values: \"all\", \"failure\", \"success\"\n",
   "      #     renderer:\n",
   "      #       module_name: great_expectations.render.renderer.slack_renderer\n",
   "      #       class_name: SlackRenderer\n",
   "\n",
   "stores:\n",
   "# Stores are configurable places to store things like Expectations, Validations\n",
   "# Data Docs, and more. These are for advanced users only - most users can simply\n",
   "# leave this section alone.\n",
   "#\n",
   "# Three stores are required: expectations, validations, and\n",
   "# evaluation_parameters, and must exist with a valid store entry. Additional\n",
   "# stores can be configured for uses such as data_docs, validation_operators, etc.\n",
   "  expectations_store:\n",
   "    class_name: ExpectationsStore\n",
   "    store_backend:\n",
   "      class_name: TupleFilesystemStoreBackend\n",
   "      base_directory: expectations/\n",
   "\n",
   "  validations_store:\n",
   "    class_name: ValidationsStore\n",
   "    store_backend:\n",
   "      class_name: TupleFilesystemStoreBackend\n",
   "      base_directory: uncommitted/validations/\n",
   "\n",
   "  evaluation_parameter_store:\n",
   "    # Evaluation Parameters enable dynamic expectations. Read more here:\n",
   "    # https://docs.greatexpectations.io/en/latest/reference/core_concepts/evaluation_parameters.html\n",
   "    class_name: EvaluationParameterStore\n",
   "\n",
   "expectations_store_name: expectations_store\n",
   "validations_store_name: validations_store\n",
   "evaluation_parameter_store_name: evaluation_parameter_store\n",
   "\n",
   "data_docs_sites:\n",
   "  # Data Docs make it simple to visualize data quality in your project. These\n",
   "  # include Expectations, Validations & Profiles. The are built for all\n",
   "  # Datasources from JSON artifacts in the local repo including validations &\n",
   "  # profiles from the uncommitted directory. Read more at https://docs.greatexpectations.io/en/latest/reference/core_concepts/data_docs.html\n",
   "  local_site:\n",
   "    class_name: SiteBuilder\n",
   "    # set to false to hide how-to buttons in Data Docs\n",
   "    show_how_to_buttons: true\n",
   "    store_backend:\n",
   "        class_name: TupleFilesystemStoreBackend\n",
   "        base_directory: uncommitted/data_docs/local_site/\n",
   "    site_index_builder:\n",
   "        class_name: DefaultSiteIndexBuilder\n"]

/-- Template source, the full project file, three includes: the module's flat string literal,
written as its lines (the content is their concatenation). -/
def PROJECT_TEMPLATE_WITH_USAGE_STATISTICS_TEMPLATE : Text :=
  ["\n",
   "\x7b% include 'project_help_comment_template.j2' %\x7d\n",
   "\x7b% include 'project_optional_config_comment_template.j2' %\x7d\n",
   "\x7b% include 'anonymized_usage_statistics_template.j2' %\x7d\n"]

/-- The DictLoader mapping with which the module's Jinja2 environment J2_ENV
is constructed: registered template name to template source. -/
def J2_ENV : List (String × Text) :=
  [("config_version_template.j2", CONFIG_VERSION_TEMPLATE),
   ("anonymized_usage_statistics_template.j2", ANONYMIZED_USAGE_STATISTICS_TEMPLATE),
   ("data_context_unique_id_project_template.j2", DATA_CONTEXT_UNIQUE_ID_PROJECT_TEMPLATE),
   ("project_help_comment_template.j2", PROJECT_HELP_COMMENT_TEMPLATE),
   ("config_variables_intro_template.j2", CONFIG_VARIABLES_INTRO_TEMPLATE),
   ("config_variables_template.j2", CONFIG_VARIABLES_TEMPLATE),
   ("project_optional_config_comment_template.j2", PROJECT_OPTIONAL_CONFIG_COMMENT_TEMPLATE),
   ("project_template_with_usage_statistics_template.j2", PROJECT_TEMPLATE_WITH_USAGE_STATISTICS_TEMPLATE)]

/-- The interpreter recursion limit bounding include nesting in the real
renderer (Python's default limit). -/
def PYTHON_RECURSION_LIMIT : Nat := 1000

/-- The platform line separator of the environment the module runs on. -/
def os_linesep : String := "\n"

/-- The module-level process-wide instance identifier, as a function of the
uuid4 value drawn once at import time: its string form with a trailing line
separator appended. -/
def INSTANCE_ID (uuid4 : String) : String := uuid4 ++ os_linesep

/-- The public entry point get_project_config_yaml: a None argument or a name
shorter than 4 characters yields None before any template lookup; otherwise
the named template is rendered with the supplied keyword bindings. -/
def get_project_config_yaml (j2_template_name : Option String) (kwargs : Bindings) :
    Except RenderErr (Option Text) :=
  match j2_template_name with
  | none => Except.ok none
  | some n =>
    if n.length < 4 then Except.ok none
    else (renderTpl PYTHON_RECURSION_LIMIT J2_ENV n kwargs).map some

/-- The entry point viewed as a function of the process's import-time uuid4
draw: the module global INSTANCE_ID uuid4 is in scope, but the function body
never reads it, exactly as in the source. -/
def get_project_config_yaml_of_process (uuid4 : String) (j2_template_name : Option String)
    (kwargs : Bindings) : Except RenderErr (Option Text) :=
  get_project_config_yaml j2_template_name kwargs

/-- The text the public entry point produces for a named template, when the
render succeeds. -/
def renderOut (name : String) (b : Bindings) : Option Text :=
  match get_project_config_yaml (some name) b with
  | Except.ok r => r
  | Except.error _ => none

/-- Flatten a piece of text into its reversed character list, chunk by
chunk. -/
def flattenRevAux : Text → List Char → List Char
  | [], acc => acc
  | s :: rest, acc => flattenRevAux rest (List.reverseAux s.data acc)

/-- The content of a piece of text as one flat string (used on short
texts). -/
def flattenText (t : Text) : String :=
  String.mk (flattenRevAux t []).reverse

/-- The content of an optional piece of text as one flat string. -/
def optFlatten (o : Option Text) : Option String := o.map flattenText

/-- Number of chunks. -/
def chunkCount (t : Text) : Nat := lengthAcc t 0

/-- Does the pattern match the content starting right here? The content is
the current chunk's remaining characters followed by the remaining chunks;
matching crosses chunk boundaries. The fuel dominates the pattern length
plus the number of remaining chunks. -/
def matchStream : Nat → List Char → List Char → Text → Bool
  | 0, _, _, _ => false
  | _ + 1, [], _, _ => true
  | _ + 1, _ :: _, [], [] => false
  | fuel + 1, p :: ps, [], chunk :: rest => matchStream fuel (p :: ps) chunk.data rest
  | fuel + 1, p :: ps, c :: cs, rest => p == c && matchStream fuel ps cs rest

/-- Scan every start position inside the current chunk for a match of the
pattern (a match may continue into the following chunks). -/
def scanChunk (pat : List Char) : List Char → Text → Bool
  | [], _ => false
  | c :: cs, rest =>
    matchStream (lengthAcc pat 0 + chunkCount rest + 1) pat (c :: cs) rest ||
      scanChunk pat cs rest

/-- Does the pattern occur anywhere in the content of the text? Every start
position lies inside some chunk, so scanning each chunk with its
continuation covers exactly the positions of the concatenated content. -/
def textContainsAux (pat : List Char) : Text → Bool
  | [] => pat.isEmpty
  | chunk :: rest => scanChunk pat chunk.data rest || textContainsAux pat rest

/-- Substring test on the content of a piece of text. -/
def textContains (t : Text) (pat : String) : Bool :=
  textContainsAux pat.data t

/-- The render succeeded and its content contains the pattern. -/
def optTextContains (o : Option Text) (pat : String) : Bool :=
  match o with
  | some t => textContains t pat
  | none => false

/-- Chunk-list prefix test (chunkwise equality). -/
def chunksFrom : List String → List String → Bool
  | [], _ => true
  | _ :: _, [] => false
  | p :: ps, c :: cs => p == c && chunksFrom ps cs

/-- Does the first chunk list occur contiguously inside the second? A
contiguous chunk-list occurrence makes its concatenated content a substring
of the other's concatenated content. -/
def chunksInfix : List String → List String → Bool
  | pat, [] => pat.isEmpty
  | pat, c :: cs => chunksFrom pat (c :: cs) || chunksInfix pat cs

/-- Both renders succeeded and the second render's chunks occur contiguously
(hence its content verbatim) inside the first render's chunks. -/
def optChunksInfix : Option Text → Option Text → Bool
  | some t, some p => chunksInfix p t
  | _, _ => false

/-- Placeholder names occurring in a part list, where g collects those of an
included template. -/
def collectParts (g : String → List String) : List Part → List String
  | [] => []
  | Part.lit _ :: rest => collectParts g rest
  | Part.var x :: rest => x :: collectParts g rest
  | Part.incl n :: rest => g n ++ collectParts g rest

/-- Placeholder names occurring anywhere in the transitively resolved text of
a named template, down to the given include depth. -/
def collectVars : Nat → List (String × Text) → String → List String
  | 0, _, _ => []
  | fuel + 1, reg, name =>
    match lookupA reg name with
    | none => []
    | some body =>
      collectParts (collectVars fuel reg) (parseText (stripTrailingNewlineT body))

/-- The renderer as the specification words it: the identical pipeline except
that each template source is used verbatim, with no trailing-newline strip. -/
def verbatimRenderTpl : Nat → List (String × Text) → String → Bindings → Except RenderErr Text
  | 0, _, _, _ => Except.error RenderErr.recursionLimit
  | fuel + 1, reg, name, b =>
    match lookupA reg name with
    | none => Except.error (RenderErr.templateNotFound name)
    | some body =>
      renderParts (fun n => verbatimRenderTpl fuel reg n b) b (parseText body)

/-- A registry with one trailing newline removed from every stored body. -/
def stripRegistry (reg : List (String × Text)) : List (String × Text) :=
  reg.map (fun p => (p.1, stripTrailingNewlineT p.2))

/-- A synthetic two-template include cycle, the test scenario the
specification's cycle policy describes. -/
def CYCLIC_TEST_REGISTRY : List (String × Text) :=
  [("cyclic_a.j2", ["\x7b% include 'cyclic_b.j2' %\x7d"]),
   ("cyclic_b.j2", ["\x7b% include 'cyclic_a.j2' %\x7d"])]

deriving instance DecidableEq for Except

/-- Appending a binding for a fresh key never changes any other lookup. -/
theorem lookupA_append_ne {α : Type} (b : List (String × α)) (k x : String) (v : α)
    (h : ¬ x = k) : lookupA (b ++ [(k, v)]) x = lookupA b x := by
  induction b with
  | nil => simp [lookupA, h]
  | cons p rest ih =>
    obtain ⟨k0, v0⟩ := p
    by_cases hx : x = k0
    · simp [lookupA, hx]
    · simp [lookupA, hx, ih]

/-- Rendering a part list is unchanged when the include renderer agrees on
every include of the list and the bindings look up equal on every
placeholder of the list. -/
theorem renderPartsAcc_congr (f g : String → Except RenderErr Text) (b b' : Bindings) :
    ∀ (parts : List Part),
      (∀ n, Part.incl n ∈ parts → f n = g n) →
      (∀ x, Part.var x ∈ parts → lookupA b x = lookupA b' x) →
      ∀ acc, renderPartsAcc f b parts acc = renderPartsAcc g b' parts acc := by
  intro parts
  induction parts with
  | nil => intro _ _ _; rfl
  | cons p rest ih =>
    intro hf hb acc
    cases p with
    | lit s =>
      simp only [renderPartsAcc]
      exact ih (fun n hn => hf n (List.mem_cons_of_mem _ hn))
        (fun x hx => hb x (List.mem_cons_of_mem _ hx)) _
    | var x =>
      simp only [renderPartsAcc]
      rw [hb x (List.mem_cons_self _ _)]
      exact ih (fun n hn => hf n (List.mem_cons_of_mem _ hn))
        (fun y hy => hb y (List.mem_cons_of_mem _ hy)) _
    | incl n =>
      simp only [renderPartsAcc]
      rw [hf n (List.mem_cons_self _ _)]
      cases g n with
      | error e => rfl
      | ok inner =>
        exact ih (fun m hm => hf m (List.mem_cons_of_mem _ hm))
          (fun y hy => hb y (List.mem_cons_of_mem _ hy)) _

/-- A placeholder of a part list is among its collected names. -/
theorem mem_collectParts_var (g : String → List String) :
    ∀ (parts : List Part) (x : String), Part.var x ∈ parts → x ∈ collectParts g parts := by
  intro parts
  induction parts with
  | nil => intro x hx; cases hx
  | cons p rest ih =>
    intro x hx
    cases p with
    | lit s =>
      simp only [collectParts]
      rcases List.mem_cons.mp hx with h | h
      · cases h
      · exact ih x h
    | var y =>
      simp only [collectParts]
      rcases List.mem_cons.mp hx with h | h
      · cases h; exact List.mem_cons_self _ _
      · exact List.mem_cons_of_mem _ (ih x h)
    | incl n =>
      simp only [collectParts]
      rcases List.mem_cons.mp hx with h | h
      · cases h
      · exact List.mem_append_right _ (ih x h)

/-- A name collected from an included template of a part list is among the
list's collected names. -/
theorem mem_collectParts_incl (g : String → List String) :
    ∀ (parts : List Part) (n : String) (y : String),
      Part.incl n ∈ parts → y ∈ g n → y ∈ collectParts g parts := by
  intro parts
  induction parts with
  | nil => intro n y hn _; cases hn
  | cons p rest ih =>
    intro n y hn hy
    cases p with
    | lit s =>
      simp only [collectParts]
      rcases List.mem_cons.mp hn with h | h
      · cases h
      · exact ih n y h hy
    | var x =>
      simp only [collectParts]
      rcases List.mem_cons.mp hn with h | h
      · cases h
      · exact List.mem_cons_of_mem _ (ih n y h hy)
    | incl m =>
      simp only [collectParts]
      rcases List.mem_cons.mp hn with h | h
      · cases h; exact List.mem_append_left _ hy
      · exact List.mem_append_right _ (ih n y h hy)

/-- Appending a binding whose key occurs as no placeholder of the template's
transitively resolved text leaves the whole render unchanged. -/
theorem renderTpl_extra_binding :
    ∀ (fuel : Nat) (reg : List (String × Text)) (name : String) (b : Bindings)
      (k : String) (v : JValue), ¬ k ∈ collectVars fuel reg name →
      renderTpl fuel reg name (b ++ [(k, v)]) = renderTpl fuel reg name b := by
  intro fuel
  induction fuel with
  | zero => intro reg name b k v _; rfl
  | succ f ih =>
    intro reg name b k v hk
    show renderTpl (f + 1) reg name (b ++ [(k, v)]) = renderTpl (f + 1) reg name b
    rw [renderTpl, renderTpl]
    cases hl : lookupA reg name with
    | none => rfl
    | some body =>
      have hcv : collectVars (f + 1) reg name
          = collectParts (collectVars f reg) (parseText (stripTrailingNewlineT body)) := by
        rw [collectVars, hl]
      show Except.map List.reverse
          (renderPartsAcc (fun n => renderTpl f reg n (b ++ [(k, v)])) (b ++ [(k, v)])
            (parseText (stripTrailingNewlineT body)) [])
        = Except.map List.reverse
          (renderPartsAcc (fun n => renderTpl f reg n b) b
            (parseText (stripTrailingNewlineT body)) [])
      exact congrArg (Except.map List.reverse)
        (renderPartsAcc_congr _ _ _ _ _
          (fun n hn => ih reg n b k v
            (fun hkin => hk (hcv.symm ▸ mem_collectParts_incl _ _ n k hn hkin)))
          (fun x hx => lookupA_append_ne b k x v
            (fun hxk => hk (hcv.symm ▸ mem_collectParts_var _ _ k (hxk ▸ hx))))
          [])

/-- Looking a name up in a value-mapped registry maps the original lookup. -/
theorem lookupA_map {α β : Type} (g : α → β) :
    ∀ (reg : List (String × α)) (n : String),
      lookupA (reg.map (fun p => (p.1, g p.2))) n = (lookupA reg n).map g := by
  intro reg
  induction reg with
  | nil => intro n; rfl
  | cons p rest ih =>
    intro n
    obtain ⟨k0, v0⟩ := p
    by_cases hn : n = k0
    · simp [lookupA, hn]
    · simp [lookupA, hn, ih]

/-- Stripping the registry is mapping the strip over its values. -/
theorem lookupA_stripRegistry (reg : List (String × Text)) (n : String) :
    lookupA (stripRegistry reg) n = (lookupA reg n).map stripTrailingNewlineT :=
  lookupA_map stripTrailingNewlineT reg n

/-- The renderer coincides with the verbatim splice-and-substitute renderer
run on the registry whose bodies have their one trailing newline removed. -/
theorem renderTpl_eq_verbatim_on_stripped :
    ∀ (fuel : Nat) (reg : List (String × Text)) (name : String) (b : Bindings),
      renderTpl fuel reg name b = verbatimRenderTpl fuel (stripRegistry reg) name b := by
  intro fuel
  induction fuel with
  | zero => intro reg name b; rfl
  | succ f ih =>
    intro reg name b
    rw [renderTpl, verbatimRenderTpl, lookupA_stripRegistry]
    cases hl : lookupA reg name with
    | none => rfl
    | some body =>
      show Except.map List.reverse
          (renderPartsAcc (fun n => renderTpl f reg n b) b
            (parseText (stripTrailingNewlineT body)) [])
        = Except.map List.reverse
          (renderPartsAcc (fun n => verbatimRenderTpl f (stripRegistry reg) n b) b
            (parseText (stripTrailingNewlineT body)) [])
      exact congrArg (Except.map List.reverse)
        (renderPartsAcc_congr _ _ _ _ _ (fun n _ => ih reg n b) (fun x _ => rfl) [])

/-- A part list that is one failing include renders to that failure. -/
theorem renderParts_single_incl_error (f : String → Except RenderErr Text) (b : Bindings)
    (n : String) (h : f n = Except.error RenderErr.recursionLimit) :
    renderParts f b [Part.incl n] = Except.error RenderErr.recursionLimit := by
  unfold renderParts
  have hacc : renderPartsAcc f b [Part.incl n] [] = Except.error RenderErr.recursionLimit := by
    rw [renderPartsAcc, h]
  rw [hacc]
  rfl

/-- One step around the synthetic cycle, first template. -/
theorem cyclic_render_step_a (f : Nat) (b : Bindings)
    (h : renderTpl f CYCLIC_TEST_REGISTRY "cyclic_b.j2" b = Except.error RenderErr.recursionLimit) :
    renderTpl (f + 1) CYCLIC_TEST_REGISTRY "cyclic_a.j2" b
      = Except.error RenderErr.recursionLimit := by
  have e : renderTpl (f + 1) CYCLIC_TEST_REGISTRY "cyclic_a.j2" b
      = renderParts (fun n => renderTpl f CYCLIC_TEST_REGISTRY n b) b
          [Part.incl "cyclic_b.j2"] := rfl
  rw [e]
  exact renderParts_single_incl_error _ _ _ h

/-- One step around the synthetic cycle, second template. -/
theorem cyclic_render_step_b (f : Nat) (b : Bindings)
    (h : renderTpl f CYCLIC_TEST_REGISTRY "cyclic_a.j2" b = Except.error RenderErr.recursionLimit) :
    renderTpl (f + 1) CYCLIC_TEST_REGISTRY "cyclic_b.j2" b
      = Except.error RenderErr.recursionLimit := by
  have e : renderTpl (f + 1) CYCLIC_TEST_REGISTRY "cyclic_b.j2" b
      = renderParts (fun n => renderTpl f CYCLIC_TEST_REGISTRY n b) b
          [Part.incl "cyclic_a.j2"] := rfl
  rw [e]
  exact renderParts_single_incl_error _ _ _ h

/-- Claim C1, counterexample: rendering the usage-statistics template with
the boolean true bound to its placeholder substitutes Python's capitalized
literal, so the full output is "(newline)anonymous_usage_statistics:(newline)
(indent)enabled: True", and the output does not contain the lowercase
substring "enabled: true" the claim requires. -/
theorem claim_C1_counterexample :
    optFlatten (renderOut "anonymized_usage_statistics_template.j2"
        [("allow_anonymous_usage_statistics", JValue.bool true)])
      = some "\nanonymous_usage_statistics:\n  enabled: True" ∧
    optTextContains (renderOut "anonymized_usage_statistics_template.j2"
        [("allow_anonymous_usage_statistics", JValue.bool true)]) "enabled: true" = false := by
  decide

/-- Claim C1, amended: a boolean binding is substituted as Python's
capitalized literal, so rendering the usage-statistics template or the full
project template with the flag true yields output containing "enabled: True"
(and with false, "enabled: False"), never the lowercase form. -/
theorem claim_C1_bool_renders_capitalized :
    optTextContains (renderOut "anonymized_usage_statistics_template.j2"
        [("allow_anonymous_usage_statistics", JValue.bool true)]) "enabled: True" = true ∧
    optTextContains (renderOut "anonymized_usage_statistics_template.j2"
        [("allow_anonymous_usage_statistics", JValue.bool false)]) "enabled: False" = true ∧
    optTextContains (renderOut "project_template_with_usage_statistics_template.j2"
        [("allow_anonymous_usage_statistics", JValue.bool true)]) "enabled: True" = true ∧
    optTextContains (renderOut "project_template_with_usage_statistics_template.j2"
        [("allow_anonymous_usage_statistics", JValue.bool true)]) "enabled: true" = false := by
  decide

/-- Claim C2, counterexample: rendering the usage-statistics template with no
bindings at all succeeds (no UnboundVariable-style failure exists in the
pipeline) and substitutes the empty string for the unbound placeholder: the
output ends with "enabled: " followed by nothing. -/
theorem claim_C2_counterexample :
    get_project_config_yaml (some "anonymized_usage_statistics_template.j2") []
      ≠ Except.error RenderErr.recursionLimit ∧
    (∀ m : String, get_project_config_yaml (some "anonymized_usage_statistics_template.j2") []
      ≠ Except.error (RenderErr.templateNotFound m)) ∧
    optFlatten (renderOut "anonymized_usage_statistics_template.j2" [])
      = some "\nanonymous_usage_statistics:\n  enabled: " := by
  refine ⟨by decide, ?_, by decide⟩
  intro m h
  have : Except.ok (some ["\n", "anonymous_usage_statistics:\n", "  enabled: ", ""])
      = get_project_config_yaml (some "anonymized_usage_statistics_template.j2") [] := by decide
  rw [← this] at h
  cases h

/-- Claim C2, amended: rendering a registered template whose placeholder has
no matching binding succeeds and substitutes the empty string for the
unbound placeholder (the environment's default Undefined), instead of
failing with an UnboundVariable error. -/
theorem claim_C2_unbound_renders_empty :
    optFlatten (renderOut "anonymized_usage_statistics_template.j2" [])
      = some "\nanonymous_usage_statistics:\n  enabled: " ∧
    (renderOut "project_template_with_usage_statistics_template.j2" []).isSome = true ∧
    (renderOut "data_context_unique_id_project_template.j2" []).isSome = true ∧
    (renderOut "config_variables_template.j2" []).isSome = true ∧
    optTextContains (renderOut "config_variables_template.j2" []) "instance_id: " = true := by
  decide

/-- Claim C3, counterexample: calling the public entry point with a template
name exactly as the specification's table lists it, without the ".j2"
suffix of the registered key, fails with TemplateNotFound instead of
succeeding. -/
theorem claim_C3_counterexample :
    get_project_config_yaml (some "config_version_template") []
      = Except.error (RenderErr.templateNotFound "config_version_template") := by
  decide

/-- Claim C3, amended: every name of the specification's table becomes
resolvable once the ".j2" suffix of its registered key is appended: the
public entry point succeeds on each with its required bindings, and on
"config_version_template.j2" it returns exactly the renderer's result for
that template with no bindings. -/
theorem claim_C3_suffixed_names_resolvable :
    (renderOut "config_version_template.j2" []).isSome = true ∧
    (renderOut "anonymized_usage_statistics_template.j2"
      [("allow_anonymous_usage_statistics", JValue.bool true)]).isSome = true ∧
    (renderOut "data_context_unique_id_project_template.j2"
      [("allow_anonymous_usage_statistics", JValue.bool true)]).isSome = true ∧
    (renderOut "project_help_comment_template.j2" []).isSome = true ∧
    (renderOut "config_variables_intro_template.j2" []).isSome = true ∧
    (renderOut "config_variables_template.j2"
      [("instance_id", JValue.str "00000000-0000-0000-0000-000000000000")]).isSome = true ∧
    (renderOut "project_optional_config_comment_template.j2" []).isSome = true ∧
    (renderOut "project_template_with_usage_statistics_template.j2"
      [("allow_anonymous_usage_statistics", JValue.bool true)]).isSome = true ∧
    get_project_config_yaml (some "config_version_template.j2") []
      = (renderTpl PYTHON_RECURSION_LIMIT J2_ENV "config_version_template.j2" []).map some := by
  decide

/-- Claim C4: the public entry point returns a null result, raising nothing,
for an absent name and for any name shorter than 4 characters, before any
registry lookup can fail; for any name of length at least 4 it delegates to
the renderer on the module registry. -/
theorem claim_C4_short_name_guard :
    (∀ (b : Bindings), get_project_config_yaml none b = Except.ok none) ∧
    (∀ (s : String) (b : Bindings), s.length < 4 →
      get_project_config_yaml (some s) b = Except.ok none) ∧
    (∀ (s : String) (b : Bindings), 4 ≤ s.length →
      get_project_config_yaml (some s) b
        = (renderTpl PYTHON_RECURSION_LIMIT J2_ENV s b).map some) := by
  refine ⟨fun b => rfl, fun s b h => ?_, fun s b h => ?_⟩
  · simp [get_project_config_yaml, h]
  · simp [get_project_config_yaml, Nat.not_lt.mpr h]

/-- Claim C4, witness: the guard at the concrete inputs of the
specification, including a short name absent from the registry, and the
delegation equation at a real template name. -/
theorem claim_C4_short_name_guard_witness :
    get_project_config_yaml none [] = Except.ok none ∧
    get_project_config_yaml (some "") [] = Except.ok none ∧
    get_project_config_yaml (some "abc") [] = Except.ok none ∧
    get_project_config_yaml (some "config_version_template.j2") []
      = (renderTpl PYTHON_RECURSION_LIMIT J2_ENV "config_version_template.j2" []).map some :=
  ⟨claim_C4_short_name_guard.1 [],
   claim_C4_short_name_guard.2.1 "" [] (by decide),
   claim_C4_short_name_guard.2.1 "abc" [] (by decide),
   claim_C4_short_name_guard.2.2 "config_version_template.j2" [] (by decide)⟩

/-- Claim C5, counterexample: on the synthetic two-template include cycle,
rendering at the concrete recursion budget 500 fails with the
recursion-limit error (the model of Python's RecursionError); no
CyclicInclude failure exists anywhere in the pipeline's error type. -/
theorem claim_C5_counterexample :
    renderTpl 500 CYCLIC_TEST_REGISTRY "cyclic_a.j2" []
      = Except.error RenderErr.recursionLimit := by
  decide

/-- Claim C5, amended: on a registry with a two-template include cycle,
rendering either template on the cycle exhausts every finite recursion
budget and fails with the recursion-limit error (Python's RecursionError)
— it never succeeds and never reports any dedicated cyclic-include
condition, because none exists in the code. -/
theorem claim_C5_cycle_recursion_error :
    ∀ (fuel : Nat) (b : Bindings),
      renderTpl fuel CYCLIC_TEST_REGISTRY "cyclic_a.j2" b
        = Except.error RenderErr.recursionLimit ∧
      renderTpl fuel CYCLIC_TEST_REGISTRY "cyclic_b.j2" b
        = Except.error RenderErr.recursionLimit := by
  intro fuel
  induction fuel with
  | zero => intro b; exact ⟨rfl, rfl⟩
  | succ f ih =>
    intro b
    exact ⟨cyclic_render_step_a f b (ih b).2, cyclic_render_step_b f b (ih b).1⟩

/-- Claim C6: rendering the full project template with its required flag
splices the fully rendered help template verbatim into the output (its
rendered chunks occur contiguously inside the output's chunks), and the
output contains the help template's distinguishing literal line
"datasources: (braces)". -/
theorem claim_C6_transitive_include :
    optChunksInfix (renderOut "project_template_with_usage_statistics_template.j2"
        [("allow_anonymous_usage_statistics", JValue.bool true)])
      (renderOut "project_help_comment_template.j2" []) = true ∧
    optTextContains (renderOut "project_template_with_usage_statistics_template.j2"
        [("allow_anonymous_usage_statistics", JValue.bool true)]) "datasources: \x7b\x7d" = true := by
  decide

/-- Claim C7: rendering the variables-file template with instance_id bound
to "abc123" succeeds and the output contains the substring
"instance_id: abc123". -/
theorem claim_C7_instance_id_binding :
    (renderOut "config_variables_template.j2" [("instance_id", JValue.str "abc123")]).isSome
      = true ∧
    optTextContains (renderOut "config_variables_template.j2"
        [("instance_id", JValue.str "abc123")]) "instance_id: abc123" = true := by
  decide

/-- Claim C8, counterexample: the version-header template parses to pure
literal text (no includes, no placeholders), so a verbatim renderer would
return its body unchanged; the actual render of it returns the body with
its one trailing newline removed, a different string. -/
theorem claim_C8_counterexample :
    parseText CONFIG_VERSION_TEMPLATE = CONFIG_VERSION_TEMPLATE.map Part.lit ∧
    optFlatten (renderOut "config_version_template.j2" [])
      = some (flattenText (stripTrailingNewlineT CONFIG_VERSION_TEMPLATE)) ∧
    flattenText (stripTrailingNewlineT CONFIG_VERSION_TEMPLATE) ++ "\n"
      = flattenText CONFIG_VERSION_TEMPLATE ∧
    ¬ flattenText (stripTrailingNewlineT CONFIG_VERSION_TEMPLATE)
      = flattenText CONFIG_VERSION_TEMPLATE := by
  decide

/-- Claim C8, amended: for every registry, template name, bindings and
recursion budget, the render is exactly the verbatim splice-and-substitute
render of the registry whose stored bodies each have their single trailing
newline removed first (the lexer's keep_trailing_newline default); no other
characters are trimmed or re-indented anywhere. -/
theorem claim_C8_verbatim_after_lexer_strip :
    ∀ (fuel : Nat) (reg : List (String × Text)) (name : String) (b : Bindings),
      renderTpl fuel reg name b = verbatimRenderTpl fuel (stripRegistry reg) name b :=
  renderTpl_eq_verbatim_on_stripped

/-- Claim C9: the public entry point is deterministic and reads no hidden
state: viewed as a function of the process's import-time uuid draw, two
calls with equal names and equal bindings give byte-identical results, for
any two draws of the process-wide instance identifier. -/
theorem claim_C9_deterministic_state_free :
    ∀ (u1 u2 : String) (n1 n2 : Option String) (b1 b2 : Bindings),
      n1 = n2 → b1 = b2 →
      get_project_config_yaml_of_process u1 n1 b1
        = get_project_config_yaml_of_process u2 n2 b2 := by
  intro u1 u2 n1 n2 b1 b2 h1 h2
  rw [h1, h2]
  rfl

/-- Claim C9, witness: two processes with different instance identifiers
render the version-header template identically. -/
theorem claim_C9_deterministic_state_free_witness :
    get_project_config_yaml_of_process "process-a-uuid"
        (some "config_version_template.j2") []
      = get_project_config_yaml_of_process "process-b-uuid"
        (some "config_version_template.j2") [] :=
  claim_C9_deterministic_state_free "process-a-uuid" "process-b-uuid" _ _ _ _ rfl rfl

/-- Claim C10: appending an extra binding whose key occurs as no placeholder
anywhere in the transitively resolved text of the named template leaves the
public entry point's result unchanged. -/
theorem claim_C10_extra_binding_ignored :
    ∀ (name : String) (b : Bindings) (k : String) (v : JValue),
      ¬ k ∈ collectVars PYTHON_RECURSION_LIMIT J2_ENV name →
      get_project_config_yaml (some name) (b ++ [(k, v)])
        = get_project_config_yaml (some name) b := by
  intro name b k v hk
  by_cases h : name.length < 4
  · simp [get_project_config_yaml, h]
  · simp only [get_project_config_yaml, if_neg h]
    rw [renderTpl_extra_binding PYTHON_RECURSION_LIMIT J2_ENV name b k v hk]

/-- Claim C10, witness: an extra binding under a key foreign to the
usage-statistics template's resolved text does not change its render. -/
theorem claim_C10_extra_binding_ignored_witness :
    get_project_config_yaml (some "anonymized_usage_statistics_template.j2")
        ([("allow_anonymous_usage_statistics", JValue.bool true)]
          ++ [("extra_key", JValue.str "ignored")])
      = get_project_config_yaml (some "anonymized_usage_statistics_template.j2")
        [("allow_anonymous_usage_statistics", JValue.bool true)] :=
  claim_C10_extra_binding_ignored "anonymized_usage_statistics_template.j2"
    [("allow_anonymous_usage_statistics", JValue.bool true)]
    "extra_key" (JValue.str "ignored") (by decide)

end GreatExpectationsTemplates
